import Mathlib

/-!
Verification of the icon-detection pipeline of `packages/lisa-desktop/src/server.py`.

The Python module implements, in pure terms:
  - a template registry (`ICON_TEMPLATES`, `display_register_icon`),
  - a multi-scale template matcher (`find_template_matches`),
  - seven shape-specific heuristic detectors
    (`detect_close_buttons` .. `detect_hamburger_menu`),
  - greedy non-maximum suppression (`remove_overlapping_detections`),
  - the request handler (`display_find_icons`).

Image-processing primitives from OpenCV (`cv2.matchTemplate`, `cv2.findContours`,
`cv2.HoughLinesP`, `cv2.HoughCircles`, `cv2.approxPolyDP`, `cv2.imdecode`) are
external library calls; the embedding treats their outputs as oracle inputs
(lists of contours, segments, circles, a correlation surface, a decoder
function) and models faithfully everything the Python module itself computes
from those outputs. Floats are modelled as rationals; the float literals of the
source (0.5, 0.7, 0.15, the scale factors) are exact decimals carried over as
the corresponding rationals.
-/

/-- Model of Python `str.lower` on a single character, restricted to ASCII.
Python lowercasing is Unicode aware; every name the module compares against
(alias tables, registry keys) is ASCII, where the two functions agree. -/
def lowerChar (c : Char) : Char :=
  if 65 ≤ c.toNat ∧ c.toNat ≤ 90 then Char.ofNat (c.toNat + 32) else c

/-- Model of Python `str.lower`, applied characterwise. -/
def lowerStr (s : String) : String := ⟨s.data.map lowerChar⟩

/-- Bounding box of a detection: the `bounds` dict
`{x, y, width, height}` built by the detectors. All four are Python ints. -/
structure Bounds where
  x : ℤ
  y : ℤ
  width : ℤ
  height : ℤ
deriving DecidableEq, Repr

/-- One detection record, the dict
`{type, text, bounds, confidence}` built by the detectors. The `kind` field
models the `type` key, which every detector sets to the string `icon`. -/
structure Detection where
  kind : String
  text : String
  bounds : Bounds
  confidence : ℚ
deriving DecidableEq, Repr

/-- Intersection-over-union of two boxes, exactly as computed inside
`remove_overlapping_detections` (lines 502-512): intersection corner
coordinates by max and min, zero when there is no strictly positive overlap,
and intersection over `area1 + area2 - intersection` otherwise (zero again in
the guarded case of a nonpositive union). -/
def iou (b1 b2 : Bounds) : ℚ :=
  let x1 := max b1.x b2.x
  let y1 := max b1.y b2.y
  let x2 := min (b1.x + b1.width) (b2.x + b2.width)
  let y2 := min (b1.y + b1.height) (b2.y + b2.height)
  if x1 < x2 ∧ y1 < y2 then
    let inter : ℚ := ((x2 - x1) * (y2 - y1) : ℤ)
    let uni : ℚ := ((b1.width * b1.height + b2.width * b2.height : ℤ) : ℚ) - inter
    if 0 < uni then inter / uni else 0
  else 0

/-- The drop test of the inner loop of `remove_overlapping_detections`
(lines 497-516): the IoU is computed and compared against the threshold only
when the boxes overlap with positive area; otherwise the candidate is not
dropped on account of this kept detection. -/
def dropCond (b1 b2 : Bounds) (t : ℚ) : Bool :=
  let x1 := max b1.x b2.x
  let y1 := max b1.y b2.y
  let x2 := min (b1.x + b1.width) (b2.x + b2.width)
  let y2 := min (b1.y + b1.height) (b2.y + b2.height)
  if x1 < x2 ∧ y1 < y2 then
    let inter : ℚ := ((x2 - x1) * (y2 - y1) : ℤ)
    let uni : ℚ := ((b1.width * b1.height + b2.width * b2.height : ℤ) : ℚ) - inter
    let iouv := if 0 < uni then inter / uni else 0
    decide (t < iouv)
  else false

/-- Acceptance test of one candidate against the list of already kept
detections: the Python inner `for kept in keep` loop sets `should_keep` to
false as soon as one kept detection triggers the drop test. -/
def nmsAccept (t : ℚ) (keep : List Detection) (d : Detection) : Bool :=
  keep.all fun k => ! dropCond d.bounds k.bounds t

/-- The main loop of `remove_overlapping_detections`: walk the sorted
candidates, appending each candidate that passes `nmsAccept` to the kept
list. -/
def nmsLoop (t : ℚ) (keep : List Detection) : List Detection → List Detection
  | [] => keep
  | d :: ds =>
      if nmsAccept t keep d then nmsLoop t (keep ++ [d]) ds
      else nmsLoop t keep ds

/-- Stable insertion of a detection into a list sorted by confidence
descending: the new element goes in front of the first element whose
confidence is not larger. Used to model the Python call
`sorted(detections, key=lambda x: x[confidence], reverse=True)`,
which is a stable descending sort; a stable sort by one key has a unique
result, so the insertion sort below computes the same list. -/
def insertByConf (d : Detection) : List Detection → List Detection
  | [] => [d]
  | x :: xs => if x.confidence ≤ d.confidence then d :: x :: xs else x :: insertByConf d xs

/-- Model of `sorted(detections, key=lambda x: x[confidence], reverse=True)`
(line 492): stable sort by confidence descending. -/
def sortByConf : List Detection → List Detection
  | [] => []
  | d :: ds => insertByConf d (sortByConf ds)

/-- Greedy non-maximum suppression, `remove_overlapping_detections`
(lines 486-521). The default threshold of the source is 0.5. -/
def remove_overlapping_detections (detections : List Detection) (t : ℚ := 1/2) : List Detection :=
  if detections.length = 0 then []
  else nmsLoop t [] (sortByConf detections)

theorem mem_insertByConf {a d : Detection} {l : List Detection} :
    a ∈ insertByConf d l ↔ a = d ∨ a ∈ l := by
  induction l with
  | nil => simp [insertByConf]
  | cons x xs ih =>
      by_cases h : x.confidence ≤ d.confidence
      · simp [insertByConf, h]
      · simp [insertByConf, h, ih]
        tauto

theorem mem_sortByConf {a : Detection} {l : List Detection} :
    a ∈ sortByConf l ↔ a ∈ l := by
  induction l with
  | nil => simp [sortByConf]
  | cons d ds ih => simp [sortByConf, mem_insertByConf, ih]

theorem pairwise_insertByConf {d : Detection} {l : List Detection}
    (h : l.Pairwise fun a b => b.confidence ≤ a.confidence) :
    (insertByConf d l).Pairwise fun a b => b.confidence ≤ a.confidence := by
  induction l with
  | nil => simp [insertByConf]
  | cons x xs ih =>
      rcases List.pairwise_cons.mp h with ⟨hx, hxs⟩
      by_cases hc : x.confidence ≤ d.confidence
      · simp only [insertByConf, if_pos hc]
        refine List.pairwise_cons.mpr ⟨?_, h⟩
        intro b hb
        rcases List.mem_cons.mp hb with rfl | hb
        · exact hc
        · exact le_trans (hx b hb) hc
      · simp only [insertByConf, if_neg hc]
        refine List.pairwise_cons.mpr ⟨?_, ih hxs⟩
        intro b hb
        rcases mem_insertByConf.mp hb with rfl | hb
        · exact le_of_lt (lt_of_not_le hc)
        · exact hx b hb

theorem pairwise_sortByConf (l : List Detection) :
    (sortByConf l).Pairwise fun a b => b.confidence ≤ a.confidence := by
  induction l with
  | nil => simp [sortByConf]
  | cons d ds ih => exact pairwise_insertByConf ih

theorem filter_insertByConf (c : ℚ) (d : Detection) (l : List Detection) :
    (insertByConf d l).filter (fun x => x.confidence = c) =
      if d.confidence = c then d :: l.filter (fun x => x.confidence = c)
      else l.filter (fun x => x.confidence = c) := by
  induction l with
  | nil =>
      by_cases hd : d.confidence = c <;> simp [insertByConf, List.filter, hd]
  | cons x xs ih =>
      by_cases hc : x.confidence ≤ d.confidence
      · simp only [insertByConf, if_pos hc]
        by_cases hd : d.confidence = c <;> by_cases hx : x.confidence = c <;>
          simp [List.filter, hd, hx]
      · simp only [insertByConf, if_neg hc]
        by_cases hd : d.confidence = c
        · have hx : ¬ x.confidence = c := fun hx => hc (by rw [hx, hd])
          simp [List.filter, hd, hx, ih]
        · by_cases hx : x.confidence = c <;> simp [List.filter, hd, hx, ih]

theorem filter_sortByConf (c : ℚ) (l : List Detection) :
    (sortByConf l).filter (fun x => x.confidence = c) =
      l.filter (fun x => x.confidence = c) := by
  induction l with
  | nil => rfl
  | cons d ds ih =>
      by_cases hd : d.confidence = c <;>
        simp [sortByConf, filter_insertByConf, hd, List.filter, ih]

theorem iou_comm (b1 b2 : Bounds) : iou b1 b2 = iou b2 b1 := by
  simp only [iou, max_comm b1.x b2.x, max_comm b1.y b2.y,
    min_comm (b1.x + b1.width) (b2.x + b2.width),
    min_comm (b1.y + b1.height) (b2.y + b2.height),
    add_comm (b1.width * b1.height) (b2.width * b2.height)]

theorem not_dropCond_iff {b1 b2 : Bounds} {t : ℚ} (ht : 0 ≤ t) :
    (dropCond b1 b2 t = false) ↔ iou b1 b2 ≤ t := by
  by_cases h : max b1.x b2.x < min (b1.x + b1.width) (b2.x + b2.width) ∧
      max b1.y b2.y < min (b1.y + b1.height) (b2.y + b2.height)
  · simp only [dropCond, iou, if_pos h]
    simp [not_lt]
  · simp only [dropCond, iou, if_neg h]
    simp [ht]

theorem nmsLoop_append (t : ℚ) (keep l : List Detection) :
    ∃ s, nmsLoop t keep l = keep ++ s ∧ List.Sublist s l := by
  induction l generalizing keep with
  | nil => exact ⟨[], by simp [nmsLoop]⟩
  | cons d ds ih =>
      by_cases h : nmsAccept t keep d
      · rcases ih (keep ++ [d]) with ⟨s, hs, hsub⟩
        exact ⟨d :: s, by simp [nmsLoop, h, hs], List.Sublist.cons₂ d hsub⟩
      · rcases ih keep with ⟨s, hs, hsub⟩
        exact ⟨s, by simp [nmsLoop, h, hs], List.Sublist.cons d hsub⟩

theorem nmsLoop_sublist (t : ℚ) (l : List Detection) :
    List.Sublist (nmsLoop t [] l) l := by
  rcases nmsLoop_append t [] l with ⟨s, hs, hsub⟩
  rw [hs]
  simpa using hsub

theorem nmsLoop_pairwise {t : ℚ} (ht : 0 ≤ t) (keep l : List Detection)
    (hk : keep.Pairwise fun a b => iou a.bounds b.bounds ≤ t) :
    (nmsLoop t keep l).Pairwise fun a b => iou a.bounds b.bounds ≤ t := by
  induction l generalizing keep with
  | nil => simpa [nmsLoop] using hk
  | cons d ds ih =>
      by_cases h : nmsAccept t keep d
      · simp only [nmsLoop, if_pos h]
        apply ih
        rw [List.pairwise_append]
        refine ⟨hk, by simp, ?_⟩
        intro a ha b hb
        rw [List.mem_singleton] at hb
        have hall : ∀ x ∈ keep, dropCond d.bounds x.bounds t = false := by
          simpa [nmsAccept, List.all_eq_true] using h
        have hle := (not_dropCond_iff ht).mp (hall a ha)
        rw [hb, iou_comm]
        exact hle
      · simp only [nmsLoop, if_neg h]
        exact ih keep hk

theorem remove_overlapping_sublist_sort (dets : List Detection) (t : ℚ) :
    List.Sublist (remove_overlapping_detections dets t) (sortByConf dets) := by
  unfold remove_overlapping_detections
  split
  · exact List.nil_sublist _
  · exact nmsLoop_sublist t _

theorem mem_of_mem_remove_overlapping {d : Detection} {dets : List Detection} {t : ℚ}
    (h : d ∈ remove_overlapping_detections dets t) : d ∈ dets :=
  mem_sortByConf.mp ((remove_overlapping_sublist_sort dets t).subset h)

/-- C3: for every input list and every nonnegative IoU threshold, all pairs of
detections kept by `remove_overlapping_detections` have IoU at most the
threshold, and a candidate is accepted against the kept list exactly when its
IoU with every already kept detection is at most the threshold (disjoint boxes
having IoU zero by definition of `iou`). -/
theorem claim_C3_nms_invariant (dets : List Detection) (t : ℚ) (ht : 0 ≤ t) :
    ((remove_overlapping_detections dets t).Pairwise
        fun a b => iou a.bounds b.bounds ≤ t) ∧
    (∀ keep d, nmsAccept t keep d = true ↔ ∀ k ∈ keep, iou d.bounds k.bounds ≤ t) := by
  constructor
  · unfold remove_overlapping_detections
    split
    · simp
    · exact nmsLoop_pairwise ht [] _ (by simp)
  · intro keep d
    unfold nmsAccept
    rw [List.all_eq_true]
    constructor
    · intro hall k hk
      exact (not_dropCond_iff ht).mp (by simpa using hall k hk)
    · intro hall k hk
      simpa using (not_dropCond_iff ht).mpr (hall k hk)

/-- C3 witness: the invariant evaluated at a concrete two-detection input with
the default threshold. -/
theorem claim_C3_nms_invariant_witness :
    (0 : ℚ) ≤ 1/2 ∧
    (((remove_overlapping_detections
        [⟨"icon", "close", ⟨0, 0, 10, 10⟩, 7/10⟩,
         ⟨"icon", "close", ⟨0, 3, 10, 10⟩, 7/10⟩] (1/2)).Pairwise
        fun a b => iou a.bounds b.bounds ≤ 1/2) ∧
      (∀ keep d, nmsAccept (1/2) keep d = true ↔
        ∀ k ∈ keep, iou d.bounds k.bounds ≤ 1/2)) :=
  ⟨by norm_num,
   claim_C3_nms_invariant
     [⟨"icon", "close", ⟨0, 0, 10, 10⟩, 7/10⟩,
      ⟨"icon", "close", ⟨0, 3, 10, 10⟩, 7/10⟩] (1/2) (by norm_num)⟩

/-- C4: the suppressor output is non-increasing in confidence, and for every
confidence value the kept detections with that confidence form a sublist of
the input detections with that confidence, so equal-confidence detections keep
their relative input order. -/
theorem claim_C4_sorted_stable (dets : List Detection) (t : ℚ) :
    ((remove_overlapping_detections dets t).Pairwise
        fun a b => b.confidence ≤ a.confidence) ∧
    (∀ c : ℚ,
      List.Sublist
        ((remove_overlapping_detections dets t).filter fun d => d.confidence = c)
        (dets.filter fun d => d.confidence = c)) := by
  constructor
  · exact (pairwise_sortByConf dets).sublist (remove_overlapping_sublist_sort dets t)
  · intro c
    have h1 := (remove_overlapping_sublist_sort dets t).filter
      (fun d => decide (d.confidence = c))
    rw [filter_sortByConf] at h1
    exact h1

/-- Registered template: the shape of the image stored in `ICON_TEMPLATES`
by `display_register_icon` (the pixel content only ever reaches the external
correlation primitive, which the embedding abstracts as a surface oracle). -/
structure Template where
  height : ℕ
  width : ℕ
deriving DecidableEq, Repr

/-- The five fixed scale factors of `find_template_matches` (line 205). -/
def scales : List ℚ := [4/5, 9/10, 1, 11/10, 6/5]

/-- Size of one dimension after `cv2.resize(template, None, fx=scale,
fy=scale)`: the nearest integer to scale times the size, computed as the
floor of the product plus one half (the scale factors and sizes here are
nonnegative). OpenCV rounds half to even while this rounds half up; the two
agree away from half-integer products and no statement below depends on a
half-integer case. -/
def resizedDim (s : ℚ) (n : ℕ) : ℕ :=
  (s * (n : ℚ) + 1/2).num.toNat / (s * (n : ℚ) + 1/2).den

/-- Matches contributed by one scale in `find_template_matches`
(lines 206-221): a scale whose resized height or width exceeds the frame is
skipped entirely; otherwise `surf y x` models the `cv2.matchTemplate`
correlation surface, of shape `(H - h + 1) x (W - w + 1)`, and
`np.where(result >= threshold)` enumerates its coordinates in row-major
order, so detections are emitted ordered by y, then x. -/
def scaleMatches (H W h w : ℕ) (surf : ℕ → ℕ → ℚ) (name : String) (t : ℚ) :
    List Detection :=
  if H < h ∨ W < w then []
  else
    (List.range (H - h + 1)).flatMap fun y =>
      (List.range (W - w + 1)).filterMap fun x =>
        if t ≤ surf y x then
          some ⟨"icon", name, ⟨(x : ℤ), (y : ℤ), (w : ℤ), (h : ℤ)⟩, surf y x⟩
        else none

/-- Multi-scale template matcher `find_template_matches` (lines 196-224).
A color template is converted to grayscale first, which leaves its shape
unchanged; `surface h w` is the correlation-surface oracle for the template
resized to height h and width w. All five scales are evaluated and the
concatenated candidates go through `remove_overlapping_detections`. -/
def find_template_matches (H W : ℕ) (tmpl : Template)
    (surface : ℕ → ℕ → ℕ → ℕ → ℚ) (name : String) (t : ℚ) : List Detection :=
  remove_overlapping_detections
    (scales.flatMap fun s =>
      scaleMatches H W (resizedDim s tmpl.height) (resizedDim s tmpl.width)
        (surface (resizedDim s tmpl.height) (resizedDim s tmpl.width)) name t)

/-- Contour as consumed by `detect_close_buttons`: the `cv2.contourArea`
value together with the `cv2.boundingRect` box of one contour found in the
red mask. `cv2.boundingRect` yields nonnegative width and height. -/
structure Contour where
  area : ℚ
  x : ℤ
  y : ℤ
  w : ℕ
  h : ℕ
deriving DecidableEq, Repr

/-- Line segment endpoint pair as returned by `cv2.HoughLinesP`. -/
structure Seg where
  x1 : ℤ
  y1 : ℤ
  x2 : ℤ
  y2 : ℤ
deriving DecidableEq, Repr

/-- Data consumed by `detect_maximize_buttons` per contour: the vertex count
of the `cv2.approxPolyDP` approximation and the `cv2.boundingRect` box of
that approximation. -/
structure PolyData where
  nv : ℕ
  x : ℤ
  y : ℤ
  w : ℕ
  h : ℕ
deriving DecidableEq, Repr

/-- Bounding rectangle from `cv2.boundingRect`, consumed by
`detect_checkboxes`. -/
structure BRect where
  x : ℤ
  y : ℤ
  w : ℕ
  h : ℕ
deriving DecidableEq, Repr

/-- CircleData from `cv2.HoughCircles` after the `np.uint16(np.around(...))`
conversion: nonnegative integer center and radius. The uint16 wraparound of
`x - r` for r greater than x is not modelled; the subtraction is carried out
in ℤ. -/
structure CircleData where
  x : ℕ
  y : ℕ
  r : ℕ
deriving DecidableEq, Repr

/-- Close-button detector `detect_close_buttons` (lines 262-296): filter the
red-mask contours by area in (100, 5000) and aspect ratio in (0.5, 2.0),
emit fixed confidence 0.7, truncate to 5. -/
def detect_close_buttons (contours : List Contour) : List Detection :=
  (contours.filterMap fun c =>
    if 100 < c.area ∧ c.area < 5000 then
      let aspect : ℚ := if 0 < c.h then (c.w : ℚ) / (c.h : ℚ) else 0
      if 1/2 < aspect ∧ aspect < 2 then
        some ⟨"icon", "close", ⟨c.x, c.y, (c.w : ℤ), (c.h : ℤ)⟩, 7/10⟩
      else none
    else none).take 5

/-- Minimize-button detector `detect_minimize_buttons` (lines 299-324):
near-horizontal segments of length in (8, 30) whose y1 lies in the top 15
percent of the frame height, fixed confidence 0.6, truncated to 5. -/
def detect_minimize_buttons (H : ℕ) (lines : List Seg) : List Detection :=
  (lines.filterMap fun l =>
    if |l.y2 - l.y1| < 3 ∧ 8 < |l.x2 - l.x1| ∧ |l.x2 - l.x1| < 30 then
      if (l.y1 : ℚ) < (H : ℚ) * (15/100) then
        some ⟨"icon", "minimize",
          ⟨min l.x1 l.x2 - 5, l.y1 - 10, |l.x2 - l.x1| + 10, 20⟩, 3/5⟩
      else none
    else none).take 5

/-- Maximize-button detector `detect_maximize_buttons` (lines 327-354):
4-vertex polygon approximations with aspect in (0.8, 1.2), width in (10, 40)
and y in the top 15 percent, fixed confidence 0.6, truncated to 5. -/
def detect_maximize_buttons (H : ℕ) (polys : List PolyData) : List Detection :=
  (polys.filterMap fun p =>
    if p.nv = 4 then
      let aspect : ℚ := if 0 < p.h then (p.w : ℚ) / (p.h : ℚ) else 0
      if 4/5 < aspect ∧ aspect < 6/5 ∧ 10 < p.w ∧ p.w < 40 ∧
          (p.y : ℚ) < (H : ℚ) * (15/100) then
        some ⟨"icon", "maximize", ⟨p.x, p.y, (p.w : ℤ), (p.h : ℤ)⟩, 3/5⟩
      else none
    else none).take 5

/-- Checkbox detector `detect_checkboxes` (lines 357-378): bounding boxes
with aspect in (0.8, 1.2) and both sides in (10, 30), fixed confidence 0.5,
truncated to 10. -/
def detect_checkboxes (rects : List BRect) : List Detection :=
  (rects.filterMap fun rc =>
    let aspect : ℚ := if 0 < rc.h then (rc.w : ℚ) / (rc.h : ℚ) else 0
    if 4/5 < aspect ∧ aspect < 6/5 ∧ 10 < rc.w ∧ rc.w < 30 ∧
        10 < rc.h ∧ rc.h < 30 then
      some ⟨"icon", "checkbox", ⟨rc.x, rc.y, (rc.w : ℤ), (rc.h : ℤ)⟩, 1/2⟩
    else none).take 10

/-- Radio-button detector `detect_radio_buttons` (lines 381-408): every
circle returned by `cv2.HoughCircles` (radius and separation limits are
parameters of that call, not of this function) becomes a detection with
fixed confidence 0.6; the list is truncated to 10. -/
def detect_radio_buttons (circles : List CircleData) : List Detection :=
  (circles.map fun c =>
    (⟨"icon", "radio",
      ⟨(c.x : ℤ) - (c.r : ℤ), (c.y : ℤ) - (c.r : ℤ),
       2 * (c.r : ℤ), 2 * (c.r : ℤ)⟩, 3/5⟩ : Detection)).take 10

/-- Search-icon detector `detect_search_icons` (lines 411-446): each circle
carries the boolean outcome of the handle-line verification pass (an edge and
line search over a padded region of interest around the circle); verified
circles become detections with fixed confidence 0.6, truncated to 5. -/
def detect_search_icons (circles : List (CircleData × Bool)) : List Detection :=
  (circles.filterMap fun cb =>
    if cb.2 then
      some ⟨"icon", "search",
        ⟨(cb.1.x : ℤ) - (cb.1.r : ℤ) - 5, (cb.1.y : ℤ) - (cb.1.r : ℤ) - 5,
         2 * (cb.1.r : ℤ) + 15, 2 * (cb.1.r : ℤ) + 15⟩, 3/5⟩
    else none).take 5

/-- Horizontal-line summary built by `detect_hamburger_menu`: the tuple
`(min(x1, x2), y1, abs(x2 - x1))`. -/
structure HLine where
  x : ℤ
  y : ℤ
  len : ℤ
deriving DecidableEq, Repr

/-- Stable ascending insertion for the Python call
`horizontal_lines.sort(key=lambda l: (l[0], l[1]))`: lexicographic on
`(x, y)`, equal keys keeping input order. -/
def insertHLine (a : HLine) : List HLine → List HLine
  | [] => [a]
  | b :: bs =>
      if a.x < b.x ∨ (a.x = b.x ∧ a.y ≤ b.y) then a :: b :: bs
      else b :: insertHLine a bs

/-- Stable sort by `(x, y)` ascending, modelling `list.sort` with that key. -/
def sortHLines : List HLine → List HLine
  | [] => []
  | a :: as => insertHLine a (sortHLines as)

/-- Consecutive index triples, modelling
`for i in range(len(lines) - 2): l1, l2, l3 = lines[i:i+3]`. -/
def tripleWindows {α : Type} : List α → List (α × α × α)
  | a :: b :: c :: rest => (a, b, c) :: tripleWindows (b :: c :: rest)
  | _ => []

/-- Hamburger-menu detector `detect_hamburger_menu` (lines 449-483): keep
near-horizontal segments, sort by (x, y), scan consecutive triples aligned in
x within 5 with vertical spacings in (3, 15) differing by less than 3; fixed
confidence 0.7, truncated to 5. -/
def detect_hamburger_menu (lines : List Seg) : List Detection :=
  let horizontal := lines.filterMap fun l =>
    if |l.y2 - l.y1| < 3 then
      some (⟨min l.x1 l.x2, l.y1, |l.x2 - l.x1|⟩ : HLine)
    else none
  ((tripleWindows (sortHLines horizontal)).filterMap fun tw =>
    let l1 := tw.1
    let l2 := tw.2.1
    let l3 := tw.2.2
    if |l1.x - l2.x| < 5 ∧ |l2.x - l3.x| < 5 then
      let spacing1 := l2.y - l1.y
      let spacing2 := l3.y - l2.y
      if 3 < spacing1 ∧ spacing1 < 15 ∧ |spacing1 - spacing2| < 3 then
        some ⟨"icon", "menu",
          ⟨l1.x - 5, l1.y - 5, l1.len + 10, l3.y - l1.y + 10⟩, 7/10⟩
      else none
    else none).take 5

/-- One captured frame together with the outputs of the external OpenCV
primitives each heuristic detector consumes on that frame: the red-mask
contours (close), the two Hough line runs with their distinct parameters
(minimize, menu), the polygon approximations (maximize), the contour boxes
(checkbox), and the two Hough circle runs (radio; search, each circle paired
with its handle-verification outcome). -/
structure FrameData where
  height : ℕ
  width : ℕ
  redContours : List Contour
  minimizeLines : List Seg
  maximizePolys : List PolyData
  checkboxRects : List BRect
  radioCircles : List CircleData
  searchCircles : List (CircleData × Bool)
  menuLines : List Seg

/-- Alias dispatch `detect_common_ui_elements` (lines 227-259): the requested
name is matched against seven fixed alias lists; an unrecognized name yields
the empty list. The threshold parameter is received and ignored, as in the
source. -/
def detect_common_ui_elements (fd : FrameData) (icon_name : String)
    (threshold : ℚ) : List Detection :=
  if icon_name ∈ ["close", "x", "fermer"] then
    detect_close_buttons fd.redContours
  else if icon_name ∈ ["minimize", "minimiser", "_", "moins"] then
    detect_minimize_buttons fd.height fd.minimizeLines
  else if icon_name ∈ ["maximize", "maximiser", "agrandir", "square"] then
    detect_maximize_buttons fd.height fd.maximizePolys
  else if icon_name ∈ ["checkbox", "check", "case a cocher"] then
    detect_checkboxes fd.checkboxRects
  else if icon_name ∈ ["radio", "radio button", "bouton radio"] then
    detect_radio_buttons fd.radioCircles
  else if icon_name ∈ ["search", "recherche", "loupe", "magnifying glass"] then
    detect_search_icons fd.searchCircles
  else if icon_name ∈ ["menu", "hamburger", "trois lignes"] then
    detect_hamburger_menu fd.menuLines
  else []

/-- Response of the `/display/find_icons` handler on its non-exception path:
the handler always answers `success=True` with the computed icon list. -/
structure IconsResponse where
  success : Bool
  icons : List Detection
deriving DecidableEq, Repr

/-- Request handler `display_find_icons` (lines 159-193). The registry
`ICON_TEMPLATES` is passed as a lookup function. The requested icon name is
lowercased; when a template is registered under it, the template matcher
runs; the heuristic dispatch runs when the icon list is still empty after
that, which covers both the no-template case and an empty matcher result. -/
def display_find_icons (reg : String → Option Template) (fd : FrameData)
    (surface : Template → ℕ → ℕ → ℕ → ℕ → ℚ) (icon : String) (threshold : ℚ) :
    IconsResponse :=
  let icon_name := lowerStr icon
  let fromTemplate :=
    match reg icon_name with
    | some tmpl =>
        find_template_matches fd.height fd.width tmpl (surface tmpl)
          icon_name threshold
    | none => []
  let icons :=
    if fromTemplate = [] then detect_common_ui_elements fd icon_name threshold
    else fromTemplate
  ⟨true, icons⟩

/-- Outcome of `display_register_icon`: success with the stored key and the
reported size (`template.shape[1]` by `template.shape[0]`), or the 400
rejection with its message. -/
inductive RegisterResult where
  | ok (name : String) (width height : ℕ)
  | invalidInput (msg : String)
deriving DecidableEq, Repr

/-- Registration handler `display_register_icon` (lines 524-562): lowercase
the name, reject an empty name or empty template field, decode the base64
image bytes through the external decoder (modelled as the `decode` oracle for
`base64.b64decode` followed by `cv2.imdecode`), reject an undecodable image,
and otherwise store the decoded template under the lowercased key,
overwriting any previous entry. Returns the updated registry and the
response. -/
def display_register_icon (decode : String → Option Template)
    (reg : String → Option Template) (rawName templateB64 : String) :
    (String → Option Template) × RegisterResult :=
  let name := lowerStr rawName
  if name = "" ∨ templateB64 = "" then
    (reg, RegisterResult.invalidInput "Name and template required")
  else
    match decode templateB64 with
    | none => (reg, RegisterResult.invalidInput "Invalid image data")
    | some t =>
        (fun k => if k = name then some t else reg k,
         RegisterResult.ok name t.width t.height)

theorem mem_scaleMatches {H W h w : ℕ} {surf : ℕ → ℕ → ℚ} {name : String}
    {t : ℚ} {d : Detection} (hd : d ∈ scaleMatches H W h w surf name t) :
    h ≤ H ∧ w ≤ W ∧ ∃ y x, y < H - h + 1 ∧ x < W - w + 1 ∧ t ≤ surf y x ∧
      d = ⟨"icon", name, ⟨(x : ℤ), (y : ℤ), (w : ℤ), (h : ℤ)⟩, surf y x⟩ := by
  unfold scaleMatches at hd
  by_cases hc : H < h ∨ W < w
  · rw [if_pos hc] at hd
    cases hd
  · rw [if_neg hc] at hd
    push_neg at hc
    refine ⟨hc.1, hc.2, ?_⟩
    rcases List.mem_flatMap.mp hd with ⟨y, hy, hd2⟩
    rcases List.mem_filterMap.mp hd2 with ⟨x, hx, hd3⟩
    by_cases hs : t ≤ surf y x
    · rw [if_pos hs] at hd3
      exact ⟨y, x, List.mem_range.mp hy, List.mem_range.mp hx, hs,
        (Option.some_inj.mp hd3).symm⟩
    · rw [if_neg hs] at hd3
      cases hd3

theorem mem_find_template_matches {H W : ℕ} {tmpl : Template}
    {surface : ℕ → ℕ → ℕ → ℕ → ℚ} {name : String} {t : ℚ} {d : Detection}
    (hd : d ∈ find_template_matches H W tmpl surface name t) :
    ∃ s ∈ scales,
      d ∈ scaleMatches H W (resizedDim s tmpl.height) (resizedDim s tmpl.width)
          (surface (resizedDim s tmpl.height) (resizedDim s tmpl.width)) name t := by
  unfold find_template_matches at hd
  exact List.mem_flatMap.mp (mem_of_mem_remove_overlapping hd)

theorem mem_take_filterMap {α : Type} {f : α → Option Detection}
    {P : Detection → Prop} (hf : ∀ a d, f a = some d → P d)
    {l : List α} {n : ℕ} : ∀ d ∈ (l.filterMap f).take n, P d := by
  intro d hd
  rcases List.mem_filterMap.mp (List.mem_of_mem_take hd) with ⟨a, _, ha⟩
  exact hf a d ha

theorem mem_take_map {α : Type} {f : α → Detection} {P : Detection → Prop}
    (hf : ∀ a, P (f a)) {l : List α} {n : ℕ} : ∀ d ∈ (l.map f).take n, P d := by
  intro d hd
  rcases List.mem_map.mp (List.mem_of_mem_take hd) with ⟨a, _, rfl⟩
  exact hf a

theorem detect_close_props (contours : List Contour) :
    ∀ d ∈ detect_close_buttons contours,
      d.kind = "icon" ∧ d.text = "close" ∧ d.confidence = 7/10 := by
  unfold detect_close_buttons
  apply mem_take_filterMap
  intro a d ha
  repeat' (first | split at ha | dsimp only at ha)
  all_goals first
    | (obtain rfl := Option.some_inj.mp ha; exact ⟨rfl, rfl, rfl⟩)
    | exact absurd ha (by simp)

theorem detect_minimize_props (H : ℕ) (lines : List Seg) :
    ∀ d ∈ detect_minimize_buttons H lines,
      d.kind = "icon" ∧ d.text = "minimize" ∧ d.confidence = 3/5 := by
  unfold detect_minimize_buttons
  apply mem_take_filterMap
  intro a d ha
  repeat' (first | split at ha | dsimp only at ha)
  all_goals first
    | (obtain rfl := Option.some_inj.mp ha; exact ⟨rfl, rfl, rfl⟩)
    | exact absurd ha (by simp)

theorem detect_maximize_props (H : ℕ) (polys : List PolyData) :
    ∀ d ∈ detect_maximize_buttons H polys,
      d.kind = "icon" ∧ d.text = "maximize" ∧ d.confidence = 3/5 := by
  unfold detect_maximize_buttons
  apply mem_take_filterMap
  intro a d ha
  repeat' (first | split at ha | dsimp only at ha)
  all_goals first
    | (obtain rfl := Option.some_inj.mp ha; exact ⟨rfl, rfl, rfl⟩)
    | exact absurd ha (by simp)

theorem detect_checkbox_props (rects : List BRect) :
    ∀ d ∈ detect_checkboxes rects,
      d.kind = "icon" ∧ d.text = "checkbox" ∧ d.confidence = 1/2 := by
  unfold detect_checkboxes
  apply mem_take_filterMap
  intro a d ha
  repeat' (first | split at ha | dsimp only at ha)
  all_goals first
    | (obtain rfl := Option.some_inj.mp ha; exact ⟨rfl, rfl, rfl⟩)
    | exact absurd ha (by simp)

theorem detect_radio_props (circles : List CircleData) :
    ∀ d ∈ detect_radio_buttons circles,
      d.kind = "icon" ∧ d.text = "radio" ∧ d.confidence = 3/5 := by
  unfold detect_radio_buttons
  apply mem_take_map
  intro a
  exact ⟨rfl, rfl, rfl⟩

theorem detect_search_props (circles : List (CircleData × Bool)) :
    ∀ d ∈ detect_search_icons circles,
      d.kind = "icon" ∧ d.text = "search" ∧ d.confidence = 3/5 := by
  unfold detect_search_icons
  apply mem_take_filterMap
  intro a d ha
  repeat' (first | split at ha | dsimp only at ha)
  all_goals first
    | (obtain rfl := Option.some_inj.mp ha; exact ⟨rfl, rfl, rfl⟩)
    | exact absurd ha (by simp)

theorem detect_menu_props (lines : List Seg) :
    ∀ d ∈ detect_hamburger_menu lines,
      d.kind = "icon" ∧ d.text = "menu" ∧ d.confidence = 7/10 := by
  unfold detect_hamburger_menu
  apply mem_take_filterMap
  intro a d ha
  repeat' (first | split at ha | dsimp only at ha)
  all_goals first
    | (obtain rfl := Option.some_inj.mp ha; exact ⟨rfl, rfl, rfl⟩)
    | exact absurd ha (by simp)

theorem detect_common_eq_close {fd : FrameData} {t : ℚ} {name : String}
    (hn : name ∈ ["close", "x", "fermer"]) :
    detect_common_ui_elements fd name t = detect_close_buttons fd.redContours := by
  unfold detect_common_ui_elements
  rw [if_pos hn]

theorem detect_common_eq_minimize {fd : FrameData} {t : ℚ} {name : String}
    (hn : name ∈ ["minimize", "minimiser", "_", "moins"]) :
    detect_common_ui_elements fd name t =
      detect_minimize_buttons fd.height fd.minimizeLines := by
  simp only [List.mem_cons, List.not_mem_nil, or_false] at hn
  rcases hn with rfl | rfl | rfl | rfl <;>
    · unfold detect_common_ui_elements
      rw [if_neg (by decide), if_pos (by decide)]

theorem detect_common_eq_maximize {fd : FrameData} {t : ℚ} {name : String}
    (hn : name ∈ ["maximize", "maximiser", "agrandir", "square"]) :
    detect_common_ui_elements fd name t =
      detect_maximize_buttons fd.height fd.maximizePolys := by
  simp only [List.mem_cons, List.not_mem_nil, or_false] at hn
  rcases hn with rfl | rfl | rfl | rfl <;>
    · unfold detect_common_ui_elements
      rw [if_neg (by decide), if_neg (by decide), if_pos (by decide)]

theorem detect_common_eq_checkbox {fd : FrameData} {t : ℚ} {name : String}
    (hn : name ∈ ["checkbox", "check", "case a cocher"]) :
    detect_common_ui_elements fd name t = detect_checkboxes fd.checkboxRects := by
  simp only [List.mem_cons, List.not_mem_nil, or_false] at hn
  rcases hn with rfl | rfl | rfl <;>
    · unfold detect_common_ui_elements
      rw [if_neg (by decide), if_neg (by decide), if_neg (by decide),
        if_pos (by decide)]

theorem detect_common_eq_radio {fd : FrameData} {t : ℚ} {name : String}
    (hn : name ∈ ["radio", "radio button", "bouton radio"]) :
    detect_common_ui_elements fd name t = detect_radio_buttons fd.radioCircles := by
  simp only [List.mem_cons, List.not_mem_nil, or_false] at hn
  rcases hn with rfl | rfl | rfl <;>
    · unfold detect_common_ui_elements
      rw [if_neg (by decide), if_neg (by decide), if_neg (by decide),
        if_neg (by decide), if_pos (by decide)]

theorem detect_common_eq_search {fd : FrameData} {t : ℚ} {name : String}
    (hn : name ∈ ["search", "recherche", "loupe", "magnifying glass"]) :
    detect_common_ui_elements fd name t = detect_search_icons fd.searchCircles := by
  simp only [List.mem_cons, List.not_mem_nil, or_false] at hn
  rcases hn with rfl | rfl | rfl | rfl <;>
    · unfold detect_common_ui_elements
      rw [if_neg (by decide), if_neg (by decide), if_neg (by decide),
        if_neg (by decide), if_neg (by decide), if_pos (by decide)]

theorem detect_common_eq_menu {fd : FrameData} {t : ℚ} {name : String}
    (hn : name ∈ ["menu", "hamburger", "trois lignes"]) :
    detect_common_ui_elements fd name t = detect_hamburger_menu fd.menuLines := by
  simp only [List.mem_cons, List.not_mem_nil, or_false] at hn
  rcases hn with rfl | rfl | rfl <;>
    · unfold detect_common_ui_elements
      rw [if_neg (by decide), if_neg (by decide), if_neg (by decide),
        if_neg (by decide), if_neg (by decide), if_neg (by decide),
        if_pos (by decide)]

theorem detect_common_unknown {fd : FrameData} {t : ℚ} {name : String}
    (h1 : name ∉ ["close", "x", "fermer"])
    (h2 : name ∉ ["minimize", "minimiser", "_", "moins"])
    (h3 : name ∉ ["maximize", "maximiser", "agrandir", "square"])
    (h4 : name ∉ ["checkbox", "check", "case a cocher"])
    (h5 : name ∉ ["radio", "radio button", "bouton radio"])
    (h6 : name ∉ ["search", "recherche", "loupe", "magnifying glass"])
    (h7 : name ∉ ["menu", "hamburger", "trois lignes"]) :
    detect_common_ui_elements fd name t = [] := by
  unfold detect_common_ui_elements
  rw [if_neg h1, if_neg h2, if_neg h3, if_neg h4, if_neg h5, if_neg h6, if_neg h7]

theorem detect_common_conf (fd : FrameData) (name : String) (t : ℚ) :
    ∀ d ∈ detect_common_ui_elements fd name t,
      d.confidence = 7/10 ∨ d.confidence = 3/5 ∨ d.confidence = 1/2 := by
  intro d hd
  unfold detect_common_ui_elements at hd
  repeat' split at hd
  all_goals first
    | exact Or.inl (detect_close_props _ d hd).2.2
    | exact Or.inr (Or.inl (detect_minimize_props _ _ d hd).2.2)
    | exact Or.inr (Or.inl (detect_maximize_props _ _ d hd).2.2)
    | exact Or.inr (Or.inr (detect_checkbox_props _ d hd).2.2)
    | exact Or.inr (Or.inl (detect_radio_props _ d hd).2.2)
    | exact Or.inr (Or.inl (detect_search_props _ d hd).2.2)
    | exact Or.inl (detect_menu_props _ d hd).2.2
    | exact absurd hd (List.not_mem_nil d)

theorem find_template_matches_conf {H W : ℕ} {tmpl : Template}
    {surface : ℕ → ℕ → ℕ → ℕ → ℚ} {name : String} {t : ℚ} {d : Detection}
    (hd : d ∈ find_template_matches H W tmpl surface name t) :
    t ≤ d.confidence ∧ ∃ h w y x, d.confidence = surface h w y x := by
  rcases mem_find_template_matches hd with ⟨s, _, hmem⟩
  rcases mem_scaleMatches hmem with ⟨_, _, y, x, _, _, hts, hdEq⟩
  subst hdEq
  exact ⟨hts, _, _, y, x, rfl⟩

/-- C5: the multi-scale matcher skips every scale whose resized height or
width exceeds the corresponding frame dimension, and every detection it
emits carries the resized width and height of a non-skipped scale; hence no
emitted detection is wider or taller than the frame. -/
theorem claim_C5_scale_bound (H W : ℕ) (tmpl : Template)
    (surface : ℕ → ℕ → ℕ → ℕ → ℚ) (name : String) (t : ℚ) :
    (∀ h w surf, H < h ∨ W < w → scaleMatches H W h w surf name t = []) ∧
    (∀ d ∈ find_template_matches H W tmpl surface name t,
      ∃ s ∈ scales,
        resizedDim s tmpl.height ≤ H ∧ resizedDim s tmpl.width ≤ W ∧
        d.bounds.width = (resizedDim s tmpl.width : ℤ) ∧
        d.bounds.height = (resizedDim s tmpl.height : ℤ) ∧
        d.bounds.width ≤ (W : ℤ) ∧ d.bounds.height ≤ (H : ℤ)) := by
  constructor
  · intro h w surf hskip
    unfold scaleMatches
    rw [if_pos hskip]
  · intro d hd
    rcases mem_find_template_matches hd with ⟨s, hs, hmem⟩
    rcases mem_scaleMatches hmem with ⟨hh, hw, y, x, _, _, _, hdEq⟩
    subst hdEq
    refine ⟨s, hs, hh, hw, rfl, rfl, ?_, ?_⟩
    · dsimp only
      exact_mod_cast hw
    · dsimp only
      exact_mod_cast hh

/-- C5 witness: the scale-bound statement evaluated at a concrete frame,
template and constant correlation surface. -/
theorem claim_C5_scale_bound_witness :
    (∀ h w surf, 8 < h ∨ 8 < w → scaleMatches 8 8 h w surf "save" (4/5) = []) ∧
    (∀ d ∈ find_template_matches 8 8 ⟨10, 10⟩ (fun _ _ _ _ => 1) "save" (4/5),
      ∃ s ∈ scales,
        resizedDim s 10 ≤ 8 ∧ resizedDim s 10 ≤ 8 ∧
        d.bounds.width = (resizedDim s 10 : ℤ) ∧
        d.bounds.height = (resizedDim s 10 : ℤ) ∧
        d.bounds.width ≤ (8 : ℤ) ∧ d.bounds.height ≤ (8 : ℤ)) :=
  claim_C5_scale_bound 8 8 ⟨10, 10⟩ (fun _ _ _ _ => 1) "save" (4/5)

/-- C6 counterexample: six Hough circles produce six radio detections, so the
radio detector output is not capped at five; its cap in the source is ten,
line 408. -/
theorem claim_C6_counterexample :
    (detect_radio_buttons
      [⟨10, 10, 5⟩, ⟨30, 10, 5⟩, ⟨50, 10, 5⟩,
       ⟨70, 10, 5⟩, ⟨90, 10, 5⟩, ⟨110, 10, 5⟩]).length = 6 ∧
    ¬ (detect_radio_buttons
      [⟨10, 10, 5⟩, ⟨30, 10, 5⟩, ⟨50, 10, 5⟩,
       ⟨70, 10, 5⟩, ⟨90, 10, 5⟩, ⟨110, 10, 5⟩]).length ≤ 5 := by
  refine ⟨by decide, by decide⟩

/-- C6 amended: each heuristic detector truncates its filtered candidate
list, in original detection order, to a fixed cap: 10 for the checkbox and
radio detectors, 5 for the close, minimize, maximize, search and menu
detectors. -/
theorem claim_C6_amended_caps (H : ℕ) (contours : List Contour)
    (mlines : List Seg) (polys : List PolyData) (rects : List BRect)
    (circles : List CircleData) (scircles : List (CircleData × Bool))
    (hlines : List Seg) :
    (detect_close_buttons contours).length ≤ 5 ∧
    (detect_minimize_buttons H mlines).length ≤ 5 ∧
    (detect_maximize_buttons H polys).length ≤ 5 ∧
    (detect_checkboxes rects).length ≤ 10 ∧
    (detect_radio_buttons circles).length ≤ 10 ∧
    (detect_search_icons scircles).length ≤ 5 ∧
    (detect_hamburger_menu hlines).length ≤ 5 := by
  refine ⟨?_, ?_, ?_, ?_, ?_, ?_, ?_⟩ <;>
    simp only [detect_close_buttons, detect_minimize_buttons,
      detect_maximize_buttons, detect_checkboxes, detect_radio_buttons,
      detect_search_icons, detect_hamburger_menu, List.length_take] <;>
    exact min_le_left _ _

/-- C10: every detection produced by the heuristic dispatch carries the
canonical detector name as its label, whatever alias of the group was
requested: any alias of the close group yields detections labeled close, and
likewise for the other six groups. -/
theorem claim_C10_canonical_labels (fd : FrameData) (name : String) (t : ℚ) :
    (name ∈ ["close", "x", "fermer"] →
      ∀ d ∈ detect_common_ui_elements fd name t, d.text = "close") ∧
    (name ∈ ["minimize", "minimiser", "_", "moins"] →
      ∀ d ∈ detect_common_ui_elements fd name t, d.text = "minimize") ∧
    (name ∈ ["maximize", "maximiser", "agrandir", "square"] →
      ∀ d ∈ detect_common_ui_elements fd name t, d.text = "maximize") ∧
    (name ∈ ["checkbox", "check", "case a cocher"] →
      ∀ d ∈ detect_common_ui_elements fd name t, d.text = "checkbox") ∧
    (name ∈ ["radio", "radio button", "bouton radio"] →
      ∀ d ∈ detect_common_ui_elements fd name t, d.text = "radio") ∧
    (name ∈ ["search", "recherche", "loupe", "magnifying glass"] →
      ∀ d ∈ detect_common_ui_elements fd name t, d.text = "search") ∧
    (name ∈ ["menu", "hamburger", "trois lignes"] →
      ∀ d ∈ detect_common_ui_elements fd name t, d.text = "menu") := by
  refine ⟨?_, ?_, ?_, ?_, ?_, ?_, ?_⟩ <;> intro hn d hd
  · rw [detect_common_eq_close hn] at hd
    exact (detect_close_props _ d hd).2.1
  · rw [detect_common_eq_minimize hn] at hd
    exact (detect_minimize_props _ _ d hd).2.1
  · rw [detect_common_eq_maximize hn] at hd
    exact (detect_maximize_props _ _ d hd).2.1
  · rw [detect_common_eq_checkbox hn] at hd
    exact (detect_checkbox_props _ d hd).2.1
  · rw [detect_common_eq_radio hn] at hd
    exact (detect_radio_props _ d hd).2.1
  · rw [detect_common_eq_search hn] at hd
    exact (detect_search_props _ d hd).2.1
  · rw [detect_common_eq_menu hn] at hd
    exact (detect_menu_props _ d hd).2.1

/-- C10 witness: requesting the localized alias fermer on a frame with one
qualifying red contour yields detections labeled close. -/
theorem claim_C10_canonical_labels_witness :
    "fermer" ∈ ["close", "x", "fermer"] ∧
    ∀ d ∈ detect_common_ui_elements
        ⟨100, 100, [⟨200, 0, 0, 20, 20⟩], [], [], [], [], [], []⟩ "fermer" (4/5),
      d.text = "close" :=
  ⟨by decide,
   (claim_C10_canonical_labels
     ⟨100, 100, [⟨200, 0, 0, 20, 20⟩], [], [], [], [], [], []⟩ "fermer" (4/5)).1
     (by decide)⟩

/-- C8: a request whose lowercased icon name has no registered template and
belongs to none of the seven alias groups is answered with success true and
an empty icon list, not an error. -/
theorem claim_C8_unknown_alias (reg : String → Option Template) (fd : FrameData)
    (surface : Template → ℕ → ℕ → ℕ → ℕ → ℚ) (icon : String) (t : ℚ)
    (hreg : reg (lowerStr icon) = none)
    (h1 : lowerStr icon ∉ ["close", "x", "fermer"])
    (h2 : lowerStr icon ∉ ["minimize", "minimiser", "_", "moins"])
    (h3 : lowerStr icon ∉ ["maximize", "maximiser", "agrandir", "square"])
    (h4 : lowerStr icon ∉ ["checkbox", "check", "case a cocher"])
    (h5 : lowerStr icon ∉ ["radio", "radio button", "bouton radio"])
    (h6 : lowerStr icon ∉ ["search", "recherche", "loupe", "magnifying glass"])
    (h7 : lowerStr icon ∉ ["menu", "hamburger", "trois lignes"]) :
    display_find_icons reg fd surface icon t = ⟨true, []⟩ := by
  simp only [display_find_icons, hreg]
  rw [detect_common_unknown h1 h2 h3 h4 h5 h6 h7]
  simp

/-- C8 witness: the unknown name foobar with an empty registry. -/
theorem claim_C8_unknown_alias_witness :
    (fun _ : String => (none : Option Template)) (lowerStr "foobar") = none ∧
    display_find_icons (fun _ => none) ⟨8, 8, [], [], [], [], [], [], []⟩
      (fun _ _ _ _ _ => 0) "foobar" (4/5) = ⟨true, []⟩ :=
  ⟨rfl,
   claim_C8_unknown_alias (fun _ => none) ⟨8, 8, [], [], [], [], [], [], []⟩
     (fun _ _ _ _ _ => 0) "foobar" (4/5) rfl (by decide) (by decide)
     (by decide) (by decide) (by decide) (by decide) (by decide)⟩

/-- C9 counterexample: the handler does not validate the caller threshold and
the matcher reports the raw correlation value as confidence, so a negative
caller threshold (here -1) lets a negative correlation value (here -1/2,
attainable under TM_CCOEFF_NORMED, whose range is [-1, 1]) through as a
detection confidence outside [0, 1]. -/
theorem claim_C9_counterexample :
    (display_find_icons (fun s => if s = "save" then some ⟨10, 10⟩ else none)
        ⟨8, 8, [], [], [], [], [], [], []⟩ (fun _ _ _ _ _ => -1/2)
        "save" (-1)).icons =
      [⟨"icon", "save", ⟨0, 0, 8, 8⟩, -1/2⟩] ∧
    ¬ (0 : ℚ) ≤ -1/2 := by
  refine ⟨by with_unfolding_all decide, by norm_num⟩

/-- C9 amended: with a nonnegative caller threshold and correlation values at
most 1 (the TM_CCOEFF_NORMED upper bound), every detection returned by the
handler has confidence in [0, 1]: template-path confidences are correlation
values at least the threshold, heuristic confidences are the constants 0.7,
0.6 and 0.5. A negative caller threshold can instead surface a negative
confidence. -/
theorem claim_C9_amended_confidence (reg : String → Option Template)
    (fd : FrameData) (surface : Template → ℕ → ℕ → ℕ → ℕ → ℚ) (icon : String)
    (t : ℚ) (ht : 0 ≤ t) (hs : ∀ tmpl h w y x, surface tmpl h w y x ≤ 1) :
    ∀ d ∈ (display_find_icons reg fd surface icon t).icons,
      0 ≤ d.confidence ∧ d.confidence ≤ 1 := by
  intro d hd
  simp only [display_find_icons] at hd
  cases hreg : reg (lowerStr icon) with
  | none =>
      rw [hreg] at hd
      dsimp only at hd
      rw [if_pos rfl] at hd
      rcases detect_common_conf fd (lowerStr icon) t d hd with h | h | h <;>
        rw [h] <;> norm_num
  | some tmpl =>
      rw [hreg] at hd
      dsimp only at hd
      by_cases he : find_template_matches fd.height fd.width tmpl (surface tmpl)
          (lowerStr icon) t = []
      · rw [if_pos he] at hd
        rcases detect_common_conf fd (lowerStr icon) t d hd with h | h | h <;>
          rw [h] <;> norm_num
      · rw [if_neg he] at hd
        rcases find_template_matches_conf hd with ⟨hge, h, w, y, x, hconf⟩
        exact ⟨le_trans ht hge, by rw [hconf]; exact hs tmpl h w y x⟩

/-- C9 amended witness: the bound evaluated with an empty registry, a
constant zero surface and the default threshold. -/
theorem claim_C9_amended_confidence_witness :
    (0 : ℚ) ≤ 4/5 ∧
    ∀ d ∈ (display_find_icons (fun _ => none)
        ⟨8, 8, [], [], [], [], [], [], []⟩ (fun _ _ _ _ _ => 0)
        "save" (4/5)).icons,
      0 ≤ d.confidence ∧ d.confidence ≤ 1 :=
  ⟨by norm_num,
   claim_C9_amended_confidence (fun _ => none)
     ⟨8, 8, [], [], [], [], [], [], []⟩ (fun _ _ _ _ _ => 0) "save" (4/5)
     (by norm_num) (fun _ _ _ _ _ => by norm_num)⟩

/-- C1 counterexample: with a 100 by 100 template registered under close and
a 10 by 10 frame, every scale is skipped, so the suppressed matcher result is
empty; the handler then does consult the heuristic bank and returns its
nonempty close detection instead of the empty matcher result. -/
theorem claim_C1_counterexample :
    find_template_matches 10 10 ⟨100, 100⟩ (fun _ _ _ _ => 0) "close" (4/5)
      = [] ∧
    (display_find_icons (fun s => if s = "close" then some ⟨100, 100⟩ else none)
        ⟨10, 10, [⟨200, 0, 0, 20, 20⟩], [], [], [], [], [], []⟩
        (fun _ _ _ _ _ => 0) "close" (4/5)).icons =
      [⟨"icon", "close", ⟨0, 0, 20, 20⟩, 7/10⟩] := by
  refine ⟨by with_unfolding_all decide, by with_unfolding_all decide⟩

/-- C1 amended: when a template is registered under the requested name, the
handler returns the suppressed matcher result only when that result is
nonempty; when the matcher result is empty the heuristic dispatch is
consulted and its result is returned. -/
theorem claim_C1_amended_fallback (reg : String → Option Template)
    (fd : FrameData) (surface : Template → ℕ → ℕ → ℕ → ℕ → ℚ) (icon : String)
    (t : ℚ) (tmpl : Template) (hreg : reg (lowerStr icon) = some tmpl) :
    (find_template_matches fd.height fd.width tmpl (surface tmpl)
        (lowerStr icon) t ≠ [] →
      (display_find_icons reg fd surface icon t).icons =
        find_template_matches fd.height fd.width tmpl (surface tmpl)
          (lowerStr icon) t) ∧
    (find_template_matches fd.height fd.width tmpl (surface tmpl)
        (lowerStr icon) t = [] →
      (display_find_icons reg fd surface icon t).icons =
        detect_common_ui_elements fd (lowerStr icon) t) := by
  constructor
  · intro hne
    simp only [display_find_icons, hreg]
    rw [if_neg hne]
  · intro he
    simp only [display_find_icons, hreg]
    rw [if_pos he]

/-- C1 amended witness: a registered 10 by 10 template on an 8 by 8 frame
with a constant correlation surface of 1. -/
theorem claim_C1_amended_fallback_witness :
    (fun s => if s = "save" then some (⟨10, 10⟩ : Template) else none)
        (lowerStr "save") = some ⟨10, 10⟩ ∧
    ((find_template_matches 8 8 ⟨10, 10⟩ (fun _ _ _ _ => 1)
        (lowerStr "save") (4/5) ≠ [] →
      (display_find_icons
          (fun s => if s = "save" then some ⟨10, 10⟩ else none)
          ⟨8, 8, [], [], [], [], [], [], []⟩ (fun _ _ _ _ _ => 1)
          "save" (4/5)).icons =
        find_template_matches 8 8 ⟨10, 10⟩ (fun _ _ _ _ => 1)
          (lowerStr "save") (4/5)) ∧
    (find_template_matches 8 8 ⟨10, 10⟩ (fun _ _ _ _ => 1)
        (lowerStr "save") (4/5) = [] →
      (display_find_icons
          (fun s => if s = "save" then some ⟨10, 10⟩ else none)
          ⟨8, 8, [], [], [], [], [], [], []⟩ (fun _ _ _ _ _ => 1)
          "save" (4/5)).icons =
        detect_common_ui_elements ⟨8, 8, [], [], [], [], [], [], []⟩
          (lowerStr "save") (4/5))) :=
  ⟨by decide,
   claim_C1_amended_fallback
     (fun s => if s = "save" then some ⟨10, 10⟩ else none)
     ⟨8, 8, [], [], [], [], [], [], []⟩ (fun _ _ _ _ _ => 1)
     "save" (4/5) ⟨10, 10⟩ (by decide)⟩

/-- C2 counterexample: on the heuristic path the suppressor is never run: two
close-button candidates whose boxes have IoU 7/13, above the 0.5 threshold,
are both returned by the handler, while the suppressor applied to that same
candidate list keeps only the first. -/
theorem claim_C2_counterexample :
    (display_find_icons (fun _ => none)
        ⟨100, 100, [⟨200, 0, 0, 10, 10⟩, ⟨200, 0, 3, 10, 10⟩],
         [], [], [], [], [], []⟩
        (fun _ _ _ _ _ => 0) "close" (4/5)).icons =
      [⟨"icon", "close", ⟨0, 0, 10, 10⟩, 7/10⟩,
       ⟨"icon", "close", ⟨0, 3, 10, 10⟩, 7/10⟩] ∧
    1/2 < iou ⟨0, 0, 10, 10⟩ ⟨0, 3, 10, 10⟩ ∧
    remove_overlapping_detections
      [⟨"icon", "close", ⟨0, 0, 10, 10⟩, 7/10⟩,
       ⟨"icon", "close", ⟨0, 3, 10, 10⟩, 7/10⟩] (1/2) =
      [⟨"icon", "close", ⟨0, 0, 10, 10⟩, 7/10⟩] := by
  refine ⟨by with_unfolding_all decide, by with_unfolding_all decide,
    by with_unfolding_all decide⟩

/-- C2 amended: a request that falls through to the heuristic dispatch,
either because no template is registered under the lowercased name or
because the registered-template matcher result is empty, returns the
dispatched detector output directly, with no overlap-suppression pass; in
particular overlapping heuristic candidates are all returned, subject only
to the detector cap. -/
theorem claim_C2_amended_no_suppression (reg : String → Option Template)
    (fd : FrameData) (surface : Template → ℕ → ℕ → ℕ → ℕ → ℚ) (icon : String)
    (t : ℚ)
    (hfall : reg (lowerStr icon) = none ∨
      ∃ tmpl, reg (lowerStr icon) = some tmpl ∧
        find_template_matches fd.height fd.width tmpl (surface tmpl)
          (lowerStr icon) t = []) :
    (display_find_icons reg fd surface icon t).icons =
      detect_common_ui_elements fd (lowerStr icon) t := by
  rcases hfall with hreg | ⟨tmpl, hreg, he⟩
  · simp only [display_find_icons, hreg]
    rw [if_pos trivial]
  · simp only [display_find_icons, hreg]
    rw [if_pos he]

/-- C2 amended witness: a 100 by 100 template registered under close with a
10 by 10 frame, so every scale is skipped and the matcher result is empty;
the request falls through and the handler returns the heuristic output of
the two overlapping contours directly. -/
theorem claim_C2_amended_no_suppression_witness :
    ((fun s => if s = "close" then some (⟨100, 100⟩ : Template) else none)
        (lowerStr "close") = none ∨
      ∃ tmpl,
        (fun s => if s = "close" then some (⟨100, 100⟩ : Template) else none)
          (lowerStr "close") = some tmpl ∧
        find_template_matches 10 10 tmpl (fun _ _ _ _ => 0)
          (lowerStr "close") (4/5) = []) ∧
    (display_find_icons
        (fun s => if s = "close" then some ⟨100, 100⟩ else none)
        ⟨10, 10, [⟨200, 0, 0, 10, 10⟩, ⟨200, 0, 3, 10, 10⟩],
         [], [], [], [], [], []⟩
        (fun _ _ _ _ _ => 0) "close" (4/5)).icons =
      detect_common_ui_elements
        ⟨10, 10, [⟨200, 0, 0, 10, 10⟩, ⟨200, 0, 3, 10, 10⟩],
         [], [], [], [], [], []⟩ (lowerStr "close") (4/5) :=
  ⟨Or.inr ⟨⟨100, 100⟩, by decide, by with_unfolding_all decide⟩,
   claim_C2_amended_no_suppression
     (fun s => if s = "close" then some ⟨100, 100⟩ else none)
     ⟨10, 10, [⟨200, 0, 0, 10, 10⟩, ⟨200, 0, 3, 10, 10⟩],
      [], [], [], [], [], []⟩
     (fun _ _ _ _ _ => 0) "close" (4/5)
     (Or.inr ⟨⟨100, 100⟩, by decide, by with_unfolding_all decide⟩)⟩

/-- C7: two successful registrations whose names lowercase to the same key
leave only the second decoded template retrievable under that key. -/
theorem claim_C7_last_write_wins (decode : String → Option Template)
    (reg : String → Option Template) (n1 n2 b1 b2 : String) (t1 t2 : Template)
    (hk : lowerStr n1 = lowerStr n2) (hn : lowerStr n1 ≠ "")
    (hb1 : b1 ≠ "") (hb2 : b2 ≠ "")
    (hd1 : decode b1 = some t1) (hd2 : decode b2 = some t2) :
    ((display_register_icon decode
        (display_register_icon decode reg n1 b1).1 n2 b2).1) (lowerStr n2) =
      some t2 := by
  have hn2 : lowerStr n2 ≠ "" := hk ▸ hn
  simp only [display_register_icon, hd1, hd2]
  rw [if_neg (not_or.mpr ⟨hn, hb1⟩), if_neg (not_or.mpr ⟨hn2, hb2⟩)]
  simp

/-- C7 witness: registering Save then SAVE with a concrete decoder leaves the
second template under the key save. -/
theorem claim_C7_last_write_wins_witness :
    lowerStr "Save" = lowerStr "SAVE" ∧
    ((display_register_icon
        (fun s => if s = "A" then some ⟨1, 2⟩ else
          if s = "B" then some ⟨3, 4⟩ else none)
        (display_register_icon
          (fun s => if s = "A" then some ⟨1, 2⟩ else
            if s = "B" then some ⟨3, 4⟩ else none)
          (fun _ => none) "Save" "A").1 "SAVE" "B").1) (lowerStr "SAVE") =
      some ⟨3, 4⟩ :=
  ⟨by decide,
   claim_C7_last_write_wins
     (fun s => if s = "A" then some ⟨1, 2⟩ else
       if s = "B" then some ⟨3, 4⟩ else none)
     (fun _ => none) "Save" "SAVE" "A" "B" ⟨1, 2⟩ ⟨3, 4⟩
     (by decide) (by decide) (by decide) (by decide) (by decide) (by decide)⟩
